import Mathlib

/-
Verification development for pump.py: a driver for Harvard syringe pumps
speaking an ASCII command/response protocol over a serial chain.

Modelling conventions:
* Python strings are Lean `String`s; slicing, `find`, `in`, `lstrip`,
  `rstrip` and `splitlines` are reimplemented below with Python's
  semantics (negative indices, clamping, terminal-line-break handling).
* Python floats are idealized as exact rationals (`ℚ`); `float(...)`
  parsing and `str`/`"%2.2f"` formatting are modelled on that basis.
* The serial transport is modelled as a script: a list of the raw byte
  strings the transport yields, one per `read` call; a missing entry is
  an empty (timed-out) read.
* A raised Python exception is modelled as `err = some msg` in the
  operation's result; log output is an explicit list of messages tagged
  with their channel (print / logging.info / logging.error).
-/

/-! ### Python string primitives -/

/-- Python `s[:n]` for a nonnegative `n`. -/
def pyTake (s : String) (n : Nat) : String := ⟨s.data.take n⟩

/-- Python `s[:2]`. -/
def pyPre2 (s : String) : String := ⟨s.data.take 2⟩

/-- Python `s[-3:]`: the last three characters, or all of `s` when it is
shorter than three characters. -/
def pySfx3 (s : String) : String := ⟨s.data.drop (s.data.length - 3)⟩

/-- Python `s[i]` with negative-index support; `IndexError` when out of
range. -/
def pyGetChar (s : String) (i : Int) : Except String Char :=
  let n : Int := s.data.length
  let j := if i < 0 then i + n else i
  if 0 ≤ j ∧ j < n then .ok (s.data.getD j.toNat ' ')
  else .error "IndexError"

/-- Python `s[a:b]` with negative indices and clamping. -/
def pySlice (s : String) (a b : Int) : String :=
  let n : Int := s.data.length
  let lo := if a < 0 then max 0 (a + n) else min a n
  let hi := if b < 0 then max 0 (b + n) else min b n
  ⟨(s.data.take hi.toNat).drop lo.toNat⟩

/-- Python `s.lstrip(chars)`. -/
def pyLStrip (chars : List Char) (s : String) : String :=
  ⟨s.data.dropWhile (fun c => chars.contains c)⟩

/-- Python `s.rstrip(chars)`. -/
def pyRStrip (chars : List Char) (s : String) : String :=
  ⟨(s.data.reverse.dropWhile (fun c => chars.contains c)).reverse⟩

/-- Python `needle in hay` (substring containment). -/
def strContains (hay needle : String) : Bool :=
  (List.range (hay.data.length + 1)).any
    (fun i => needle.data.isPrefixOf (hay.data.drop i))

/-- Python `hay.find(needle)`: index of the leftmost occurrence, `-1`
when absent. -/
def pyFind (hay needle : String) : Int :=
  match (List.range (hay.data.length + 1)).find?
      (fun i => needle.data.isPrefixOf (hay.data.drop i)) with
  | some i => (i : Int)
  | none => -1

/-- Auxiliary for `pySplitlines`: accumulates the current line (reversed). -/
def splitlinesAux : List Char → List Char → List String
  | [], [] => []
  | [], cur => [⟨cur.reverse⟩]
  | '\r' :: '\n' :: rest, cur => ⟨cur.reverse⟩ :: splitlinesAux rest []
  | '\r' :: rest, cur => ⟨cur.reverse⟩ :: splitlinesAux rest []
  | '\n' :: rest, cur => ⟨cur.reverse⟩ :: splitlinesAux rest []
  | c :: rest, cur => splitlinesAux rest (c :: cur)

/-- Python `s.splitlines()` (restricted to `\r`, `\n`, `\r\n` breaks,
the only ones that occur on this wire). -/
def pySplitlines (s : String) : List String := splitlinesAux s.data []

/-! ### Numeric parsing and formatting -/

/-- ASCII decimal digit test. -/
def isPyDigit (c : Char) : Bool := '0' ≤ c && c ≤ '9'

/-- Numeric value of a digit character. -/
def digitVal (c : Char) : Nat := c.toNat - '0'.toNat

/-- Value of a digit list read most-significant first. -/
def natOfDigits (ds : List Char) : Nat :=
  ds.foldl (fun a c => a * 10 + digitVal c) 0

/-- Python `float(s)` on the plain decimal strings this driver feeds it
(optional sign, digits, optional decimal point); `ValueError` otherwise.
The binary float is idealized as the exact rational it denotes. -/
def pyFloat (s : String) : Except String ℚ :=
  let t := ((s.data.dropWhile (fun c => c = ' ')).reverse.dropWhile
    (fun c => c = ' ')).reverse
  let sgn : ℚ := if t.head? = some '-' then -1 else 1
  let t := if t.head? = some '-' || t.head? = some '+' then t.tail else t
  let intPart := t.takeWhile isPyDigit
  let rest := t.dropWhile isPyDigit
  match rest with
  | [] =>
    if intPart.isEmpty then .error "ValueError"
    else .ok (sgn * natOfDigits intPart)
  | '.' :: frac =>
    if frac.all isPyDigit && !(intPart.isEmpty && frac.isEmpty) then
      .ok (sgn * ((natOfDigits intPart : ℚ) +
        (natOfDigits frac : ℚ) / (10 ^ frac.length)))
    else .error "ValueError"
  | _ => .error "ValueError"

/-- Decimal digits of `n`, most significant first (`fuel`-bounded
recursion; `fuel = n + 1` suffices). -/
def natDigitsAux : Nat → Nat → List Char
  | 0, _ => []
  | fuel + 1, n =>
    if n = 0 then []
    else natDigitsAux fuel (n / 10) ++ [Char.ofNat ('0'.toNat + n % 10)]

/-- Decimal rendering of a natural number. -/
def natDecStr (n : Nat) : String :=
  if n = 0 then "0" else ⟨natDigitsAux (n + 1) n⟩

/-- Decimal rendering of `n` left-padded with zeros to width `k`. -/
def natDecStrPad (n k : Nat) : String :=
  let d := natDecStr n
  ⟨List.replicate (k - d.data.length) '0' ++ d.data⟩

/-- Smallest `k ≤ 40` with `den ∣ 10 ^ k`, i.e. the length of the finite
decimal expansion (all values this driver handles have one). -/
def decExpLen (den : Nat) : Nat :=
  ((List.range 41).find? (fun k => 10 ^ k % den = 0)).getD 40

/-- Python `str(x)` for a float `x` idealized as the rational `q`:
shortest decimal form, with a trailing `.0` on integral values, exact
for values with a finite decimal expansion (the only ones that occur). -/
def pyFloatStr (q : ℚ) : String :=
  let sign := if q < 0 then "-" else ""
  let num := q.num.natAbs
  let k := decExpLen q.den
  let scaled := num * 10 ^ k / q.den
  if k = 0 then sign ++ natDecStr scaled ++ ".0"
  else sign ++ natDecStr (scaled / 10 ^ k) ++ "." ++
    natDecStrPad (scaled % 10 ^ k) k

/-- Round to the nearest integer, ties to even (the rounding of C's and
Python's `%f` formatting, on the idealized rational value). -/
def roundHalfEven (x : ℚ) : Int :=
  let f := Int.floor x
  let r := x - f
  if r < 1/2 then f
  else if 1/2 < r then f + 1
  else if f % 2 = 0 then f else f + 1

/-- Python `"%2.2f" % q`: `q` rounded to two decimal places (the width
2 never pads the strings that occur here). -/
def fmt2f (q : ℚ) : String :=
  let n := roundHalfEven (q * 100)
  let sign := if n < 0 then "-" else ""
  let m := n.natAbs
  sign ++ natDecStr (m / 100) ++ "." ++ natDecStrPad (m % 100) 2

/-! ### pump.py pure functions -/

/-- pump.py `remove_crud`: if a decimal point is present, strip trailing
`0`s; then strip leading `0`s and spaces; then strip trailing spaces and
decimal points. -/
def remove_crud (s : String) : String :=
  let s := if s.data.contains '.' then pyRStrip ['0'] s else s
  let s := pyLStrip ['0', ' '] s
  pyRStrip [' ', '.'] s

/-- pump.py `convert_units`: flow-rate unit conversion by independent
"from" and "to" factors.  Branch structure and comparisons follow the
source exactly (note the from-side hour branch compares the *whole*
string to `"hor"`, unlike every other branch). -/
def convert_units (val : ℚ) (fromUnit toUnit : String) : ℚ :=
  let time_factor_from : ℚ :=
    if pySfx3 fromUnit = "sec" then 60
    else if fromUnit = "hor" then 1/60
    else 1
  let time_factor_to : ℚ :=
    if pySfx3 toUnit = "sec" then 1/60
    else if pySfx3 toUnit = "hor" then 60
    else 1
  let vol_factor_from : ℚ :=
    if pyPre2 fromUnit = "ml" then 1000
    else if pyPre2 fromUnit = "nl" then 1/1000
    else if pyPre2 fromUnit = "pl" then 1/1000000
    else 1
  let vol_factor_to : ℚ :=
    if pyPre2 toUnit = "ml" then 1/1000
    else if pyPre2 toUnit = "nl" then 1000
    else if pyPre2 toUnit = "pl" then 1000000
    else 1
  val * time_factor_from * time_factor_to * vol_factor_from * vol_factor_to

/-- pump.py `convert_str_units`: expand a 3-character device unit code
(`abbr[0]` volume letter, `abbr[2]` time letter) to `"xl/ttt"`; raises
`ValueError` on an unknown time letter (`IndexError` when too short). -/
def convert_str_units (abbr : String) : Except String String :=
  match abbr.data.get? 0, abbr.data.get? 2 with
  | some c0, some c2 =>
    let first_part := String.mk [c0] ++ "l"
    if c2 = 's' then .ok (first_part ++ "/" ++ "sec")
    else if c2 = 'm' then .ok (first_part ++ "/" ++ "min")
    else if c2 = 'h' then .ok (first_part ++ "/" ++ "hor")
    else .error "ValueError: Unknown unit"
  | _, _ => .error "IndexError"

/-! ### Device model (chain-addressed variant, class `Pump`) -/

/-- Mutable per-device fields of a `Pump` handle.  `state` is the
free-form string label the source uses (`"idle"`, `"infusing"`,
`"withdrawing"`). -/
structure PumpSt where
  name : String
  address : String
  state : String
  diameter : Option ℚ
  flowrate : Option ℚ
  targetvolume : Option ℚ
  syringevolume : Option ℚ
deriving DecidableEq, Repr

/-- A log event, tagged with its channel. -/
inductive LogMsg
  | info (msg : String)
  | error (msg : String)
  | printed (msg : String)
deriving DecidableEq, Repr

/-- Observable outcome of one method call: the device state afterwards,
the frames written to the transport in order, the log events, a raised
exception (if any), and the threads actually started via `.start()`. -/
structure OpResult where
  pump : PumpSt
  written : List String
  logs : List LogMsg
  err : Option String
  started : List String
deriving DecidableEq, Repr

/-- Result of a branch that raises an exception. -/
def errResult (p : PumpSt) (w : List String) (msg : String) : OpResult :=
  { pump := p, written := w, logs := [], err := some msg, started := [] }

/-- The raw bytes the transport yields for the `k`-th read of an
operation; a missing entry is an empty (timed-out) read. -/
def scriptAt (resps : List String) (k : Nat) : String := resps.getD k ""

/-- `Pump.write`: the frame put on the wire is
`address ++ command ++ "\r"`. -/
def Pump.write (p : PumpSt) (command : String) : String :=
  p.address ++ command ++ "\r"

/-- Line-feed removal performed by `Pump.read`
(`response.replace('\n', '')`). -/
def removeLF (s : String) : String := ⟨s.data.filter (fun c => c != '\n')⟩

/-- `Pump.read` applied to the bytes the transport returned: an empty
read falls through the `len == 0` branch and returns Python `None`
(here `none`); otherwise the decoded text with every line feed removed
is returned. -/
def Pump.read (response : String) : Option String :=
  if response.data.length = 0 then none
  else some (removeLF response)

/-! ### The `re.search(r"(\d+\.?\d*) ([mup][l])", resp)` parser

The pattern is matched at each start position from the left; at a fixed
position the match is deterministic (backtracking cannot succeed where
the greedy parse fails, because each digit run is followed by the
literal space of the pattern, and a space matches neither a digit nor
the dot). -/

/-- Match `(\d+\.?\d*) ([mup][l])` anchored at the head of `cs`,
returning the two groups. -/
def matchNumUnitAt (cs : List Char) : Option (String × String) :=
  let d1 := cs.takeWhile isPyDigit
  if d1.isEmpty then none
  else
    let rest1 := cs.dropWhile isPyDigit
    let numTail : List Char × List Char :=
      match rest1 with
      | '.' :: r => ('.' :: r.takeWhile isPyDigit, r.dropWhile isPyDigit)
      | _ => ([], rest1)
    match numTail.2 with
    | ' ' :: u :: 'l' :: _ =>
      if u = 'm' ∨ u = 'u' ∨ u = 'p' then some (⟨d1 ++ numTail.1⟩, ⟨[u, 'l']⟩)
      else none
    | _ => none

/-- Scan for the leftmost match of the pattern. -/
def searchNumUnitAux : List Char → Option (String × String)
  | [] => none
  | c :: rest =>
    match matchNumUnitAt (c :: rest) with
    | some x => some x
    | none => searchNumUnitAux rest

/-- `re.search(r"(\d+\.?\d*) ([mup][l])", s)`, as the pair of groups. -/
def reSearchNumUnit (s : String) : Option (String × String) :=
  searchNumUnitAux s.data

/-! ### Setters and run commands (class `Pump`) -/

/-- `Pump.setdiameter`: guard on idle; range-check 0.1–35; format with
`"%2.2f"`; send; check the status token at index 2 of the last reply
line; re-query; compare; mutate `diameter` only on exact agreement. -/
def Pump.setdiameter (p : PumpSt) (diameter : ℚ) (resps : List String) :
    OpResult :=
  if p.state = "idle" then
    if diameter > 35 ∨ diameter < 1/10 then
      errResult p []
        (p.name ++ ": diameter " ++ pyFloatStr diameter ++ " mm is out of range")
    else
      let str_diameter := fmt2f diameter
      let w1 := Pump.write p ("diameter " ++ str_diameter)
      let inner : OpResult :=
        match Pump.read (pyTake (scriptAt resps 0) 80) with
        | none => errResult p [] "TypeError"  -- None.splitlines()
        | some resp =>
          match (pySplitlines resp).getLast? with
          | none => errResult p [] "IndexError"  -- resp[-1] on an empty list
          | some last_line =>
            match pyGetChar last_line 2 with
            | .error e => errResult p [] e
            | .ok c =>
              if c = ':' ∨ c = '<' ∨ c = '>' then
                let w2 := Pump.write p "diameter"
                match Pump.read (pyTake (scriptAt resps 1) 45) with
                | none => errResult p [w2] "TypeError"  -- None[3:9]
                | some resp2 =>
                  let returned_diameter := remove_crud (pySlice resp2 3 9)
                  match pyFloat returned_diameter with
                  | .error e => errResult p [w2] e
                  | .ok rd =>
                    if rd ≠ diameter then
                      { pump := p, written := [w2],
                        logs := [.error (p.name ++ ": set diameter (" ++
                          pyFloatStr diameter ++
                          " mm) does not match diameter returned by pump (" ++
                          returned_diameter ++ " mm)")],
                        err := none, started := [] }
                    else
                      { pump := { p with diameter := some rd },
                        written := [w2],
                        logs := [.info (p.name ++ ": diameter set to " ++
                          pyFloatStr rd ++ " mm")],
                        err := none, started := [] }
              else
                errResult p [] (p.name ++ ": unknown response to setdiameter")
      { pump := inner.pump, written := w1 :: inner.written,
        logs := inner.logs, err := inner.err, started := inner.started }
  else
    { pump := p, written := [],
      logs := [.printed "Please wait until pump is idle.\n"],
      err := none, started := [] }

/-- `Pump.setwithdrawrate`: guard on idle; send `wrate`; check the
status token at index 2; re-query; locate the value between the first
occurrence of the first character of `str(flowrate)` and the `"l/"`
marker; convert; mutate `flowrate` only on exact agreement. -/
def Pump.setwithdrawrate (p : PumpSt) (flowrate : ℚ) (unit : String)
    (resps : List String) : OpResult :=
  if p.state = "idle" then
    let w1 := Pump.write p ("wrate " ++ pyFloatStr flowrate ++ " " ++ unit)
    let inner : OpResult :=
      match Pump.read (pyTake (scriptAt resps 0) 7) with
      | none => errResult p [] "TypeError"  -- None[2]
      | some resp =>
        match pyGetChar resp 2 with
        | .error e => errResult p [] e
        | .ok c =>
          if c = ':' ∨ c = '<' ∨ c = '>' then
            let w2 := Pump.write p "wrate"
            match Pump.read (pyTake (scriptAt resps 1) 150) with
            | none => errResult p [w2] "TypeError"  -- None.splitlines()
            | some r2 =>
              match (pySplitlines r2).get? 0 with
              | none => errResult p [w2] "IndexError"
              | some resp2 =>
                if strContains resp2 "Argument error" then
                  errResult p [w2] (p.name ++ ": flow rate (" ++
                    pyFloatStr flowrate ++ " " ++ unit ++ ") is out of range")
                else
                  match pyGetChar (pyFloatStr flowrate) 0 with
                  | .error e => errResult p [w2] e
                  | .ok c0 =>
                    let idx1 := pyFind resp2 (String.mk [c0])
                    let idx2 := pyFind resp2 "l/"
                    let returned0 := remove_crud (pySlice resp2 idx1 (idx2 - 1))
                    let returned_unit := pySlice resp2 (idx2 - 1) (idx2 + 5)
                    match pyFloat returned0 with
                    | .error e => errResult p [w2] e
                    | .ok rf0 =>
                      match convert_str_units unit with
                      | .error e => errResult p [w2] e
                      | .ok us =>
                        let returned_flowrate := convert_units rf0 returned_unit us
                        if returned_flowrate ≠ flowrate then
                          { pump := p, written := [w2],
                            logs := [.error (p.name ++ ": set flowrate (" ++
                              pyFloatStr flowrate ++ " " ++ unit ++
                              ") does not matchflowrate returned by pump (" ++
                              pyFloatStr returned_flowrate ++ " " ++ unit ++ ")")],
                            err := none, started := [] }
                        else
                          { pump := { p with flowrate := some returned_flowrate },
                            written := [w2],
                            logs := [.info (p.name ++ ": flow rate set to " ++
                              pyFloatStr returned_flowrate ++ " uL/min")],
                            err := none, started := [] }
          else errResult p [] (p.name ++ ": unknown response")
    { pump := inner.pump, written := w1 :: inner.written,
      logs := inner.logs, err := inner.err, started := inner.started }
  else
    { pump := p, written := [],
      logs := [.printed "Please wait until pump is idle.\n"],
      err := none, started := [] }

/-- `Pump.setinfusionrate`: guard on idle; send `irate`; check for a
status token anywhere in the reply (substring test, unlike its
siblings); re-query; parse with the number+unit pattern; convert;
mutate `flowrate` only on exact agreement. -/
def Pump.setinfusionrate (p : PumpSt) (flowrate : ℚ) (unit : String)
    (resps : List String) : OpResult :=
  if p.state = "idle" then
    let w1 := Pump.write p ("irate " ++ pyFloatStr flowrate ++ " " ++ unit)
    let inner : OpResult :=
      match Pump.read (pyTake (scriptAt resps 0) 17) with
      | none => errResult p [] "TypeError"  -- ":" in None
      | some resp =>
        if strContains resp ":" || strContains resp "<" || strContains resp ">" then
          let w2 := Pump.write p "irate"
          match Pump.read (pyTake (scriptAt resps 1) 150) with
          | none => errResult p [w2] "TypeError"  -- 'error' in None
          | some r2 =>
            if strContains r2 "error" then
              errResult p [w2] (p.name ++ ": flow rate (" ++
                pyFloatStr flowrate ++ " " ++ unit ++ "l) is out of range")
            else
              match reSearchNumUnit r2 with
              | none => errResult p [w2] "Syringe volume could not be found"
              | some (g1, g2) =>
                match pyFloat g1 with
                | .error e => errResult p [w2] e
                | .ok rf0 =>
                  match convert_str_units unit with
                  | .error e => errResult p [w2] e
                  | .ok us =>
                    let returned_flowrate := convert_units rf0 g2 us
                    if returned_flowrate ≠ flowrate then
                      { pump := p, written := [w2],
                        logs := [.error (p.name ++ ": set flowrate (" ++
                          pyFloatStr flowrate ++ " " ++ unit ++
                          ") does not matchflowrate returned by pump (" ++
                          pyFloatStr returned_flowrate ++ " " ++ unit ++ ")")],
                        err := none, started := [] }
                    else
                      { pump := { p with flowrate := some returned_flowrate },
                        written := [w2],
                        logs := [.info (p.name ++ ": flow rate set to " ++
                          pyFloatStr returned_flowrate ++ " uL/min")],
                        err := none, started := [] }
        else errResult p [] (p.name ++ ": unknown response")
    { pump := inner.pump, written := w1 :: inner.written,
      logs := inner.logs, err := inner.err, started := inner.started }
  else
    { pump := p, written := [],
      logs := [.printed "Please wait until pump is idle.\n"],
      err := none, started := [] }

/-- `Pump.infuse`: guard on idle; send `irun`; a reply containing
`"Command error"` raises a `PumpError` carrying the second reply line;
otherwise the state becomes `"infusing"`.  The source then evaluates
`threading.Thread(target=self.waituntilfinished)` — it constructs a
thread object but never calls `.start()` on it, so no polling task
begins running: `started` stays empty. -/
def Pump.infuse (p : PumpSt) (resps : List String) : OpResult :=
  if p.state = "idle" then
    let w1 := Pump.write p "irun"
    let inner : OpResult :=
      match Pump.read (pyTake (scriptAt resps 0) 55) with
      | none => errResult p [] "TypeError"  -- "Command error" in None
      | some resp =>
        if strContains resp "Command error" then
          match (pySplitlines resp).get? 1 with
          | none => errResult p [] "IndexError"  -- splitlines()[1]
          | some error_msg =>
            -- raise PumpError('%s: %s', (self.name, error_msg)): the
            -- format string is never applied; the exception carries the
            -- name and the device's error detail line.
            errResult p [] (p.name ++ ": " ++ error_msg)
        else
          { pump := { p with state := "infusing" }, written := [],
            logs := [], err := none, started := [] }
    { pump := inner.pump, written := w1 :: inner.written,
      logs := inner.logs, err := inner.err, started := inner.started }
  else
    { pump := p, written := [],
      logs := [.printed "Please wait until the pump is idle before infusing.\n"],
      err := none, started := [] }

/-- `Pump.withdraw`: as `Pump.infuse` with `wrun`, an 85-byte read and
target state `"withdrawing"`; the constructed thread is never started
here either. -/
def Pump.withdraw (p : PumpSt) (resps : List String) : OpResult :=
  if p.state = "idle" then
    let w1 := Pump.write p "wrun"
    let inner : OpResult :=
      match Pump.read (pyTake (scriptAt resps 0) 85) with
      | none => errResult p [] "TypeError"  -- "Command error" in None
      | some resp =>
        if strContains resp "Command error" then
          match (pySplitlines resp).get? 1 with
          | none => errResult p [] "IndexError"
          | some error_msg => errResult p [] (p.name ++ ": " ++ error_msg)
        else
          { pump := { p with state := "withdrawing" }, written := [],
            logs := [], err := none, started := [] }
    { pump := inner.pump, written := w1 :: inner.written,
      logs := inner.logs, err := inner.err, started := inner.started }
  else
    { pump := p, written := [],
      logs := [.printed "Please wait until the pump is idle before withdrawing.\n"],
      err := none, started := [] }

/-- `Pump.waituntilfinished`: while the state is `"infusing"` or
`"withdrawing"`, read 5 bytes; a reply containing `"T*"` sets the state
to `"idle"` and returns `"finished"`.  An empty read makes the `in`
test raise a `TypeError`, which the bare `except` swallows, so polling
just continues.  The script bounds the number of polls observed; an
exhausted script leaves the loop still running (`none` returned,
state unchanged). -/
def Pump.waituntilfinished (p : PumpSt) (resps : List String) :
    PumpSt × Option String :=
  match resps with
  | [] => (p, none)
  | r :: rest =>
    if p.state = "infusing" ∨ p.state = "withdrawing" then
      match Pump.read (pyTake r 5) with
      | none => Pump.waituntilfinished p rest
      | some resp =>
        if strContains resp "T*" then ({ p with state := "idle" }, some "finished")
        else Pump.waituntilfinished p rest
    else (p, none)

/-- `Pump.settargetvolume`: guard on idle; send `tvolume`; read a
7-byte confirmation that is *never inspected* — the verification
conditional in the source is literally `if True:`, so the
`raise PumpError('%s: unknown response')` branch under its `else` is
unreachable; re-query; parse; convert (with `"/min"` appended to both
unit strings); mutate `targetvolume` only on exact agreement. -/
def Pump.settargetvolume (p : PumpSt) (targetvolume : ℚ) (unit : String)
    (resps : List String) : OpResult :=
  if p.state = "idle" then
    let w1 := Pump.write p ("tvolume " ++ pyFloatStr targetvolume ++ " " ++ unit)
    let _resp1 := Pump.read (pyTake (scriptAt resps 0) 7)
    let inner : OpResult :=
      let w2 := Pump.write p "tvolume"
      match Pump.read (pyTake (scriptAt resps 1) 150) with
      | none => errResult p [w2] "TypeError"  -- 'Target volume not set' in None
      | some r2 =>
        if strContains r2 "Target volume not set" then
          errResult p [w2] (p.name ++ ": Target volume (" ++
            pyFloatStr targetvolume ++ " " ++ unit ++ ") could not be set")
        else
          match reSearchNumUnit r2 with
          | none => errResult p [w2] "Syringe volume could not be found"
          | some (g1, g2) =>
            match pyFloat g1 with
            | .error e => errResult p [w2] e
            | .ok v0 =>
              match convert_str_units (unit ++ "/min") with
              | .error e => errResult p [w2] e
              | .ok us =>
                let returned_targetvolume := convert_units v0 (g2 ++ "/min") us
                if returned_targetvolume ≠ targetvolume then
                  { pump := p, written := [w2],
                    logs := [.error (p.name ++ ": set targetvolume (" ++
                      pyFloatStr targetvolume ++ " " ++ unit ++
                      ") does not matchtargetvolume returned by pump (" ++
                      pyFloatStr returned_targetvolume ++ " " ++ unit ++ ")")],
                    err := none, started := [] }
                else
                  { pump := { p with targetvolume := some returned_targetvolume },
                    written := [w2],
                    logs := [.info (p.name ++ ": target volume set to " ++
                      pyFloatStr returned_targetvolume ++ " " ++
                      pyPre2 us)],
                    err := none, started := [] }
    { pump := inner.pump, written := w1 :: inner.written,
      logs := inner.logs, err := inner.err, started := inner.started }
  else
    { pump := p, written := [],
      logs := [.printed "Please wait until pump is idle.\n"],
      err := none, started := [] }

/-- `Pump.getsyringevolume`: write `svolume`, read 60 bytes, extract
`"<num> <unit>"` with the number+unit pattern; returns the frame
written and either the string or the raised error. -/
def Pump.getsyringevolume (p : PumpSt) (raw : String) :
    String × Except String String :=
  let w := Pump.write p "svolume"
  match Pump.read (pyTake raw 60) with
  | none => (w, .error "TypeError")  -- re.search on None
  | some resp =>
    match reSearchNumUnit resp with
    | none => (w, .error "Syringe volume could not be found")
    | some (g1, g2) => (w, .ok (g1 ++ " " ++ g2))

/-- `Pump.setsyringevolume`: guard on idle; send `svolume`; check the
status token at the *last* character of the reply; re-query through
`getsyringevolume`; split off value and unit by position; convert (with
`"/min"` appended); mutate `syringevolume` only on exact agreement. -/
def Pump.setsyringevolume (p : PumpSt) (vol : ℚ) (unit : String)
    (resps : List String) : OpResult :=
  if p.state = "idle" then
    let w1 := Pump.write p ("svolume " ++ pyFloatStr vol ++ " " ++ unit ++ "l")
    let inner : OpResult :=
      match Pump.read (pyTake (scriptAt resps 0) 10) with
      | none => errResult p [] "TypeError"  -- None[-1]
      | some resp =>
        match pyGetChar resp (-1) with
        | .error e => errResult p [] e
        | .ok c =>
          if c = ':' ∨ c = '<' ∨ c = '>' then
            match Pump.getsyringevolume p (scriptAt resps 1) with
            | (w2, .error e) => errResult p [w2] e
            | (w2, .ok volume_str) =>
              let returned0 := pySlice volume_str 0 (-3)
              let returned_unit :=
                pySlice volume_str (-2) volume_str.data.length
              match pyFloat returned0 with
              | .error e => errResult p [w2] e
              | .ok v0 =>
                match convert_str_units (unit ++ "/min") with
                | .error e => errResult p [w2] e
                | .ok us =>
                  let returned_volume :=
                    convert_units v0 (returned_unit ++ "/min") us
                  if returned_volume ≠ vol then
                    { pump := p, written := [w2],
                      logs := [.error (p.name ++ ": set syringe volume (" ++
                        pyFloatStr vol ++ " " ++ unit ++
                        ") does not matchsyringe volume returned by pump (" ++
                        pyFloatStr returned_volume ++ " " ++ unit ++ ")")],
                      err := none, started := [] }
                  else
                    { pump := { p with syringevolume := some returned_volume },
                      written := [w2],
                      logs := [.info (p.name ++ ": syringe volume set to " ++
                        pyFloatStr returned_volume ++ " " ++ pyPre2 us)],
                      err := none, started := [] }
          else errResult p [] (p.name ++ ": unknown response")
    { pump := inner.pump, written := w1 :: inner.written,
      logs := inner.logs, err := inner.err, started := inner.started }
  else
    { pump := p, written := [],
      logs := [.printed "Please wait until pump is idle.\n"],
      err := none, started := [] }

/-! ### Claim-side definitions and shared material -/

deriving instance DecidableEq for Except

/-- The conversion rule exactly as claim C1 states it: single volume and
time tables keyed on the 2-character prefix / 3-character suffix, with
the conversion `value * (from_vol/to_vol) * (from_time/to_time)`. -/
def convert_units_claimC1 (val : ℚ) (fromUnit toUnit : String) : ℚ :=
  let vol : String → ℚ := fun u =>
    if pyPre2 u = "ml" then 1000
    else if pyPre2 u = "ul" then 1
    else if pyPre2 u = "nl" then 1/1000
    else if pyPre2 u = "pl" then 1/1000000
    else 1
  let time : String → ℚ := fun u =>
    if pySfx3 u = "sec" then 1/60
    else if pySfx3 u = "min" then 1
    else if pySfx3 u = "hor" then 60
    else 1
  val * (vol fromUnit / vol toUnit) * (time fromUnit / time toUnit)

/-- The conversion rule as the code actually computes it, in closed
form: the volume ratio is `from_vol / to_vol` as the claim says, but
the time ratio is `to_time / from_time` (inverted relative to the
claim), and the from-side `hor` entry matches only when the whole
`fromUnit` string equals `"hor"`. -/
def convert_units_amendedC1 (val : ℚ) (f t : String) : ℚ :=
  let from_time : ℚ :=
    if pySfx3 f = "sec" then 1/60 else if f = "hor" then 60 else 1
  let to_time : ℚ :=
    if pySfx3 t = "sec" then 1/60 else if pySfx3 t = "hor" then 60 else 1
  let from_vol : ℚ :=
    if pyPre2 f = "ml" then 1000 else if pyPre2 f = "nl" then 1/1000
    else if pyPre2 f = "pl" then 1/1000000 else 1
  let to_vol : ℚ :=
    if pyPre2 t = "ml" then 1000 else if pyPre2 t = "nl" then 1/1000
    else if pyPre2 t = "pl" then 1/1000000 else 1
  val * (from_vol / to_vol) * (to_time / from_time)

/-- Truncation (not rounding) to two decimal places, as claim C9 words
the formatting of the diameter (for the nonnegative values at stake). -/
def truncate2 (q : ℚ) : String :=
  let m := (Int.floor (q * 100)).natAbs
  natDecStr (m / 100) ++ "." ++ natDecStrPad (m % 100) 2

/-- A freshly probed idle pump at address 3. -/
def pumpIdle : PumpSt :=
  { name := "Ultra", address := "03", state := "idle", diameter := none,
    flowrate := none, targetvolume := none, syringevolume := none }

/-- The same pump while a run command is in progress. -/
def pumpBusy : PumpSt := { pumpIdle with state := "infusing" }

set_option maxHeartbeats 1000000 in
/-- `convert_units` scales linearly in its value argument. -/
theorem convert_units_mul (val : ℚ) (a b : String) :
    convert_units val a b = val * convert_units 1 a b := by
  simp only [convert_units]
  split_ifs <;> ring

/-- Round trips compose to the product of the two unit factors. -/
theorem convert_units_round (a b : String)
    (h : convert_units 1 a b * convert_units 1 b a = 1) (val : ℚ) :
    convert_units (convert_units val a b) b a = val := by
  rw [convert_units_mul, convert_units_mul val, mul_assoc, h, mul_one]

/-! ### Claims -/

/-- C1, counterexample: the claimed formula
`value * (from_vol/to_vol) * (from_time/to_time)` disagrees with
`convert_units` already on `ul/sec → ul/min` (the code yields 60, the
claimed tables yield 1/60: the time ratio is inverted), and also on
`ul/hor → ul/min` (the code's from-side hour branch compares the whole
string to `"hor"`, so the suffix lookup the claim describes never
fires: the code yields 1, the claim 60). -/
theorem C1_counterexample :
    convert_units 1 "ul/sec" "ul/min" ≠ convert_units_claimC1 1 "ul/sec" "ul/min" ∧
    convert_units 1 "ul/sec" "ul/min" = 60 ∧
    convert_units_claimC1 1 "ul/sec" "ul/min" = 1/60 ∧
    convert_units 1 "ul/hor" "ul/min" ≠ convert_units_claimC1 1 "ul/hor" "ul/min" ∧
    convert_units 1 "ul/hor" "ul/min" = 1 ∧
    convert_units_claimC1 1 "ul/hor" "ul/min" = 60 := by
  norm_num +decide [convert_units, convert_units_claimC1]

set_option maxHeartbeats 2000000 in
/-- C1, amended: for every value and every pair of unit strings,
`convert_units` equals `value * (from_vol/to_vol) * (to_time/from_time)`
— the time ratio inverted relative to the claim — where the volume
table is {ml: 1000, ul: 1, nl: 1/1000, pl: 1/1e6} keyed on the
2-character prefix, the time table is {sec: 1/60, min: 1, hor: 60}
keyed on the 3-character suffix on the to side but with the `hor` entry
keyed on whole-string equality on the from side, and unrecognized
prefixes/suffixes contribute a factor of 1. -/
theorem C1_amended (val : ℚ) (f t : String) :
    convert_units val f t = convert_units_amendedC1 val f t := by
  simp only [convert_units, convert_units_amendedC1]
  split_ifs <;> ring

/-- C2, counterexample: the round trip is off by a factor of 60 as soon
as one unit carries the `hor` suffix: converting 1 from `ul/min` to
`ul/hor` and back yields 60, not 1 (far beyond any fixed-point
tolerance). -/
theorem C2_counterexample :
    convert_units (convert_units 1 "ul/min" "ul/hor") "ul/hor" "ul/min" = 60 ∧
    convert_units (convert_units 1 "ul/min" "ul/hor") "ul/hor" "ul/min" ≠ 1 := by
  norm_num +decide [convert_units]

set_option maxHeartbeats 2000000 in
/-- C2, amended: for every value and every pair of unit strings
`<vol>/<time>` with volume prefix in {ml, ul, nl, pl} and time suffix
in {sec, min} — `hor` excluded, since its two factors are not mutually
inverse — the round trip through `convert_units` returns the value
exactly. -/
theorem C2_amended (val : ℚ) (va ta vb tb : String)
    (hva : va ∈ ["ml", "ul", "nl", "pl"]) (hta : ta ∈ ["sec", "min"])
    (hvb : vb ∈ ["ml", "ul", "nl", "pl"]) (htb : tb ∈ ["sec", "min"]) :
    convert_units (convert_units val (va ++ "/" ++ ta) (vb ++ "/" ++ tb))
      (vb ++ "/" ++ tb) (va ++ "/" ++ ta) = val := by
  fin_cases hva <;> fin_cases hta <;> fin_cases hvb <;> fin_cases htb <;>
    exact convert_units_round _ _ (by norm_num +decide [convert_units]) val

/-- C2, witness: the round trip `ml/sec → ul/min → ml/sec` on 7. -/
theorem C2_witness :
    ("ml" : String) ∈ ["ml", "ul", "nl", "pl"] ∧
    ("sec" : String) ∈ ["sec", "min"] ∧
    ("ul" : String) ∈ ["ml", "ul", "nl", "pl"] ∧
    ("min" : String) ∈ ["sec", "min"] ∧
    convert_units (convert_units 7 ("ml" ++ "/" ++ "sec") ("ul" ++ "/" ++ "min"))
      ("ul" ++ "/" ++ "min") ("ml" ++ "/" ++ "sec") = 7 :=
  ⟨by decide, by decide, by decide, by decide,
   C2_amended 7 "ml" "sec" "ul" "min" (by decide) (by decide) (by decide) (by decide)⟩

/-- C3: evaluation of `remove_crud` at the spec's three examples.  The
first two fail: the trailing space of `"00012.500 "` blocks the
trailing-zero strip, so the result keeps the zeros the docstring
promises to remove; on `"0.0"` the leading-zero strip consumes the only
digit and the result is empty, not `"0"`.  Only the third example holds. -/
theorem C3_eval :
    remove_crud "00012.500 " = "12.500" ∧ remove_crud "00012.500 " ≠ "12.5" ∧
    remove_crud "0.0" = "" ∧ remove_crud "0.0" ≠ "0" ∧
    remove_crud "   7.00" = "7" := by decide

/-- C4: when the device state is not `"idle"`, every mutating operation
(`setdiameter`, `setinfusionrate`, `setwithdrawrate`, `settargetvolume`,
`setsyringevolume`) and `infuse`/`withdraw` is a no-op: no frame is
written, the pump record (state and all stored fields) is unchanged, no
exception is raised, and the only output is the informational busy
message printed to the console. -/
theorem C4_busy_noop (p : PumpSt) (q : ℚ) (u : String) (resps : List String)
    (h : p.state ≠ "idle") :
    Pump.setdiameter p q resps =
      { pump := p, written := [],
        logs := [.printed "Please wait until pump is idle.\n"],
        err := none, started := [] } ∧
    Pump.setinfusionrate p q u resps =
      { pump := p, written := [],
        logs := [.printed "Please wait until pump is idle.\n"],
        err := none, started := [] } ∧
    Pump.setwithdrawrate p q u resps =
      { pump := p, written := [],
        logs := [.printed "Please wait until pump is idle.\n"],
        err := none, started := [] } ∧
    Pump.settargetvolume p q u resps =
      { pump := p, written := [],
        logs := [.printed "Please wait until pump is idle.\n"],
        err := none, started := [] } ∧
    Pump.setsyringevolume p q u resps =
      { pump := p, written := [],
        logs := [.printed "Please wait until pump is idle.\n"],
        err := none, started := [] } ∧
    Pump.infuse p resps =
      { pump := p, written := [],
        logs := [.printed "Please wait until the pump is idle before infusing.\n"],
        err := none, started := [] } ∧
    Pump.withdraw p resps =
      { pump := p, written := [],
        logs := [.printed "Please wait until the pump is idle before withdrawing.\n"],
        err := none, started := [] } := by
  refine ⟨?_, ?_, ?_, ?_, ?_, ?_, ?_⟩
  · unfold Pump.setdiameter; rw [if_neg h]
  · unfold Pump.setinfusionrate; rw [if_neg h]
  · unfold Pump.setwithdrawrate; rw [if_neg h]
  · unfold Pump.settargetvolume; rw [if_neg h]
  · unfold Pump.setsyringevolume; rw [if_neg h]
  · unfold Pump.infuse; rw [if_neg h]
  · unfold Pump.withdraw; rw [if_neg h]

/-- C4, witness: on an infusing pump, `setdiameter` and `infuse` reduce
to the busy no-op result. -/
theorem C4_witness :
    pumpBusy.state ≠ "idle" ∧
    Pump.setdiameter pumpBusy 20 [] =
      { pump := pumpBusy, written := [],
        logs := [.printed "Please wait until pump is idle.\n"],
        err := none, started := [] } ∧
    Pump.infuse pumpBusy [] =
      { pump := pumpBusy, written := [],
        logs := [.printed "Please wait until the pump is idle before infusing.\n"],
        err := none, started := [] } :=
  ⟨by decide, (C4_busy_noop pumpBusy 20 "u/m" [] (by decide)).1,
   (C4_busy_noop pumpBusy 20 "u/m" [] (by decide)).2.2.2.2.2.1⟩

/-- C6: on an idle pump, `setdiameter` with a diameter outside the
inclusive range [0.1, 35] raises the out-of-range `PumpError` before
any frame is written, and the pump record (diameter field and state)
is unchanged. -/
theorem C6_out_of_range (p : PumpSt) (d : ℚ) (resps : List String)
    (h1 : p.state = "idle") (h2 : d > 35 ∨ d < 1/10) :
    (Pump.setdiameter p d resps).written = [] ∧
    (Pump.setdiameter p d resps).pump = p ∧
    (Pump.setdiameter p d resps).err =
      some (p.name ++ ": diameter " ++ pyFloatStr d ++ " mm is out of range") := by
  unfold Pump.setdiameter
  rw [if_pos h1, if_pos h2]
  exact ⟨rfl, rfl, rfl⟩

/-- C6, witness: diameter 40 on the idle pump. -/
theorem C6_witness :
    pumpIdle.state = "idle" ∧ ((40 : ℚ) > 35 ∨ (40 : ℚ) < 1/10) ∧
    (Pump.setdiameter pumpIdle 40 []).written = [] ∧
    (Pump.setdiameter pumpIdle 40 []).pump = pumpIdle ∧
    (Pump.setdiameter pumpIdle 40 []).err =
      some "Ultra: diameter 40.0 mm is out of range" := by
  have h2 : (40 : ℚ) > 35 ∨ (40 : ℚ) < 1/10 := Or.inl (by norm_num)
  obtain ⟨a, b, c⟩ := C6_out_of_range pumpIdle 40 [] rfl h2
  exact ⟨rfl, h2, a, b, c.trans (by decide)⟩

/-- C10: `read` returns the decoded reply with every line-feed
character removed when the transport yields at least one byte, and
returns Python `None` (no string at all) when it yields zero bytes —
so callers that subscript or search the result of an empty read operate
on `None`, not on an empty string. -/
theorem C10_read (response : String) :
    (response.data.length = 0 → Pump.read response = none) ∧
    (response.data.length ≠ 0 →
      Pump.read response = some (removeLF response) ∧
      '\n' ∉ (removeLF response).data) := by
  constructor
  · intro h; unfold Pump.read; rw [if_pos h]
  · intro h
    refine ⟨by unfold Pump.read; rw [if_neg h], ?_⟩
    intro hm
    simp [removeLF, List.mem_filter] at hm

/-- C10, witness: an empty read yields `none`; a nonempty read drops
the line feed. -/
theorem C10_witness :
    ("" : String).data.length = 0 ∧ ("ab\nc" : String).data.length ≠ 0 ∧
    Pump.read "" = none ∧ Pump.read "ab\nc" = some "abc" :=
  ⟨rfl, by decide, (C10_read "").1 rfl,
   ((C10_read "ab\nc").2 (by decide)).1.trans (by decide)⟩

/-- C5: a rate-setting call (infusion or withdraw) that reaches the
read-back comparison with a converted value different from the
requested one returns normally (no exception), leaves the pump record
— in particular the stored `flowrate` — unchanged, and emits exactly
one error-level log message. -/
theorem C5_mismatch :
    (∀ (p : PumpSt) (fr : ℚ) (unit : String) (resps : List String)
      (s1 s2 g1 g2 us : String) (v : ℚ),
      p.state = "idle" →
      Pump.read (pyTake (scriptAt resps 0) 17) = some s1 →
      (strContains s1 ":" || strContains s1 "<" || strContains s1 ">") = true →
      Pump.read (pyTake (scriptAt resps 1) 150) = some s2 →
      strContains s2 "error" = false →
      reSearchNumUnit s2 = some (g1, g2) →
      pyFloat g1 = .ok v →
      convert_str_units unit = .ok us →
      convert_units v g2 us ≠ fr →
      (Pump.setinfusionrate p fr unit resps).err = none ∧
      (Pump.setinfusionrate p fr unit resps).pump = p ∧
      ∃ m, (Pump.setinfusionrate p fr unit resps).logs = [LogMsg.error m]) ∧
    (∀ (p : PumpSt) (fr : ℚ) (unit : String) (resps : List String)
      (s1 s2 line0 us : String) (c c0 : Char) (v : ℚ),
      p.state = "idle" →
      Pump.read (pyTake (scriptAt resps 0) 7) = some s1 →
      pyGetChar s1 2 = .ok c →
      (c = ':' ∨ c = '<' ∨ c = '>') →
      Pump.read (pyTake (scriptAt resps 1) 150) = some s2 →
      (pySplitlines s2).get? 0 = some line0 →
      strContains line0 "Argument error" = false →
      pyGetChar (pyFloatStr fr) 0 = .ok c0 →
      pyFloat (remove_crud (pySlice line0 (pyFind line0 (String.mk [c0]))
        (pyFind line0 "l/" - 1))) = .ok v →
      convert_str_units unit = .ok us →
      convert_units v (pySlice line0 (pyFind line0 "l/" - 1)
        (pyFind line0 "l/" + 5)) us ≠ fr →
      (Pump.setwithdrawrate p fr unit resps).err = none ∧
      (Pump.setwithdrawrate p fr unit resps).pump = p ∧
      ∃ m, (Pump.setwithdrawrate p fr unit resps).logs = [LogMsg.error m]) := by
  constructor
  · intro p fr unit resps s1 s2 g1 g2 us v h1 h2 h3 h4 h5 h6 h7 h8 h9
    simp only [Pump.setinfusionrate, if_pos h1, h2, h3, h4, h5, h6, h7, h8,
      Bool.false_eq_true, if_false, eq_self_iff_true, if_true, if_pos h9]
    exact ⟨trivial, trivial, _, rfl⟩
  · intro p fr unit resps s1 s2 line0 us c c0 v h1 h2 h3 hc h4 h5 h6 h7 h8 h9 h10
    simp only [Pump.setwithdrawrate, if_pos h1, h2, h3, if_pos hc, h4, h5, h6,
      h7, h8, h9, Bool.false_eq_true, if_false, eq_self_iff_true, if_true,
      if_pos h10]
    exact ⟨trivial, trivial, _, rfl⟩

/-- C5, witness: flow rate 12 requested, device echoes 13.  Both rate
setters return without raising, keep the pump record unchanged and emit
one error-level message. -/
theorem C5_witness :
    (Pump.setinfusionrate pumpIdle 12 "u/m" ["03:", "13 ul"]).err = none ∧
    (Pump.setinfusionrate pumpIdle 12 "u/m" ["03:", "13 ul"]).pump = pumpIdle ∧
    (∃ m, (Pump.setinfusionrate pumpIdle 12 "u/m" ["03:", "13 ul"]).logs =
      [LogMsg.error m]) ∧
    (Pump.setwithdrawrate pumpIdle 12 "u/m" ["03:", "13 ul/min"]).err = none ∧
    (Pump.setwithdrawrate pumpIdle 12 "u/m" ["03:", "13 ul/min"]).pump = pumpIdle ∧
    ∃ m, (Pump.setwithdrawrate pumpIdle 12 "u/m" ["03:", "13 ul/min"]).logs =
      [LogMsg.error m] := by
  have hp13 : pyFloat "13" = Except.ok 13 := by
    norm_num +decide [pyFloat, show natOfDigits ['1', '3'] = 13 from by decide]
  have hni : convert_units 13 "ul" "ul/min" ≠ 12 := by
    norm_num +decide [convert_units]
  have hnw : convert_units 13 "ul/min" "ul/min" ≠ 12 := by
    norm_num +decide [convert_units]
  obtain ⟨a1, a2, a3⟩ := C5_mismatch.1 pumpIdle 12 "u/m" ["03:", "13 ul"]
    "03:" "13 ul" "13" "ul" "ul/min" 13 rfl rfl (by decide) rfl (by decide)
    rfl hp13 rfl hni
  obtain ⟨b1, b2, b3⟩ := C5_mismatch.2 pumpIdle 12 "u/m" ["03:", "13 ul/min"]
    "03:" "13 ul/min" "13 ul/min" "ul/min" ':' '1' 13 rfl rfl (by decide)
    (Or.inl rfl) rfl rfl (by decide) (by decide) hp13 rfl hnw
  exact ⟨a1, a2, a3, b1, b2, b3⟩

/-- Success path of `settargetvolume`: no hypothesis about the first
(confirmation) reply is needed, because the source never inspects it. -/
lemma settargetvolume_sets (p : PumpSt) (tv : ℚ) (unit : String)
    (resps : List String) (s2 g1 g2 us : String) (v : ℚ)
    (h1 : p.state = "idle")
    (h2 : Pump.read (pyTake (scriptAt resps 1) 150) = some s2)
    (h3 : strContains s2 "Target volume not set" = false)
    (h4 : reSearchNumUnit s2 = some (g1, g2))
    (h5 : pyFloat g1 = .ok v)
    (h6 : convert_str_units (unit ++ "/min") = .ok us)
    (h7 : convert_units v (g2 ++ "/min") us = tv) :
    Pump.settargetvolume p tv unit resps =
      { pump := { p with targetvolume := some tv },
        written := [Pump.write p ("tvolume " ++ pyFloatStr tv ++ " " ++ unit),
          Pump.write p "tvolume"],
        logs := [.info (p.name ++ ": target volume set to " ++
          pyFloatStr tv ++ " " ++ pyPre2 us)],
        err := none, started := [] } := by
  simp only [Pump.settargetvolume, if_pos h1, h2, h3, h4, h5, h6, h7,
    Bool.false_eq_true, if_false]
  rw [if_neg (fun hne => hne rfl)]

/-- C7: `settargetvolume` never verifies the confirmation reply.  With
a confirmation `"xx"` containing none of the status tokens `:`, `<`,
`>`, the call still proceeds, raises nothing, and commits the target
volume — the token check the claim requires of every setter is absent
(the source's `if True:` makes the `ProtocolViolation` branch dead
code). -/
theorem C7_eval :
    (strContains "xx" ":" = false ∧ strContains "xx" "<" = false ∧
      strContains "xx" ">" = false) ∧
    Pump.settargetvolume pumpIdle 5 "u" ["xx", "5.0 ul"] =
      { pump := { pumpIdle with targetvolume := some 5 },
        written := ["03tvolume 5.0 u\r", "03tvolume\r"],
        logs := [.info "Ultra: target volume set to 5.0 ul"],
        err := none, started := [] } := by
  have h5 : pyFloat "5.0" = .ok 5 := by
    norm_num +decide [pyFloat, show natOfDigits ['5'] = 5 from by decide,
      show natOfDigits ['0'] = 0 from by decide]
  have h7 : convert_units 5 ("ul" ++ "/min") "ul/min" = 5 := by
    norm_num +decide [convert_units]
  refine ⟨⟨by decide, by decide, by decide⟩, ?_⟩
  rw [settargetvolume_sets pumpIdle 5 "u" ["xx", "5.0 ul"] "5.0 ul" "5.0" "ul"
    "ul/min" 5 rfl rfl rfl rfl h5 rfl h7]
  decide

/-- C8: on an idle pump a clean `irun` reply moves the state to
`"infusing"` and raises nothing — but `started` stays empty: the source
builds `threading.Thread(target=self.waituntilfinished)` and never
calls `.start()`, so no poller task runs.  A reply containing
`"Command error"` raises a `PumpError` carrying the device's detail
line with the state unchanged.  `waituntilfinished` itself, had it been
started, would poll through empty reads and set the state back to
`"idle"` on a reply containing `"T*"`. -/
theorem C8_eval :
    (Pump.infuse pumpIdle ["03>"]).err = none ∧
    (Pump.infuse pumpIdle ["03>"]).pump.state = "infusing" ∧
    (Pump.infuse pumpIdle ["03>"]).written = ["03irun\r"] ∧
    (Pump.infuse pumpIdle ["03>"]).started = [] ∧
    (Pump.infuse pumpIdle ["ugh Command error\rdetail"]).err =
      some "Ultra: detail" ∧
    (Pump.infuse pumpIdle ["ugh Command error\rdetail"]).pump = pumpIdle ∧
    Pump.waituntilfinished pumpBusy ["", "xxT*"] =
      ({ pumpBusy with state := "idle" }, some "finished") := by
  decide

/-- `setdiameter` on an idle pump with an in-range diameter always puts
the frame `address ++ "diameter " ++ "%2.2f"-formatted value ++ CR` on
the wire first, whatever the replies. -/
lemma setdiameter_first_frame (p : PumpSt) (d : ℚ) (resps : List String)
    (h1 : p.state = "idle") (h2 : ¬(d > 35 ∨ d < 1/10)) :
    (Pump.setdiameter p d resps).written.head? =
      some (p.address ++ ("diameter " ++ fmt2f d) ++ "\r") := by
  unfold Pump.setdiameter
  rw [if_pos h1, if_neg h2]
  rfl

/-- `roundHalfEven` is the identity on integers. -/
lemma roundHalfEven_intCast (n : ℤ) : roundHalfEven (n : ℚ) = n := by
  unfold roundHalfEven
  rw [Int.floor_intCast]
  norm_num

/-- C9, counterexample: for the in-range diameter 10.006 the code sends
`"10.01"` — the `"%2.2f"` formatting *rounds* — while the claim's
truncation to two decimal places would send `"10.00"`. -/
theorem C9_counterexample :
    (Pump.setdiameter pumpIdle (10006/1000) []).written.head? =
      some (pumpIdle.address ++ ("diameter " ++ "10.01") ++ "\r") ∧
    truncate2 (10006/1000) = "10.00" ∧
    pumpIdle.address ++ ("diameter " ++ "10.01") ++ "\r" ≠
      pumpIdle.address ++ ("diameter " ++ truncate2 (10006/1000)) ++ "\r" := by
  have hx : (10006 : ℚ)/1000 * 100 = 5003/5 := by norm_num
  have hfl : Int.floor ((5003 : ℚ)/5) = 1000 := by
    rw [Int.floor_eq_iff]
    constructor <;> norm_num
  have hflq : Int.floor ((10006 : ℚ)/1000 * 100) = 1000 := by rw [hx]; exact hfl
  have hr : roundHalfEven ((10006 : ℚ)/1000 * 100) = 1001 := by
    unfold roundHalfEven
    rw [hflq, hx]
    norm_num
  have hfmt : fmt2f ((10006 : ℚ)/1000) = "10.01" := by
    unfold fmt2f
    rw [hr]
    decide
  have ht : truncate2 ((10006 : ℚ)/1000) = "10.00" := by
    unfold truncate2
    rw [hflq]
    decide
  have hrange : ¬((10006 : ℚ)/1000 > 35 ∨ (10006 : ℚ)/1000 < 1/10) := by
    push_neg
    constructor <;> norm_num
  refine ⟨?_, ht, ?_⟩
  · rw [setdiameter_first_frame pumpIdle (10006/1000) [] rfl hrange, hfmt]
  · rw [ht]
    decide

/-- C9, amended: for every in-range diameter on an idle pump, the first
frame written is the address followed by `"diameter "` and the diameter
formatted with `"%2.2f"` — i.e. *rounded* (ties to even), not
truncated, to two decimal places — terminated by a carriage return. -/
theorem C9_amended (p : PumpSt) (d : ℚ) (resps : List String)
    (h1 : p.state = "idle") (h2 : ¬(d > 35 ∨ d < 1/10)) :
    (Pump.setdiameter p d resps).written.head? =
      some (p.address ++ ("diameter " ++ fmt2f d) ++ "\r") :=
  setdiameter_first_frame p d resps h1 h2

/-- C9, witness: diameter 20 on the idle pump goes out as
`"03diameter 20.00\r"`. -/
theorem C9_witness :
    pumpIdle.state = "idle" ∧ ¬((20 : ℚ) > 35 ∨ (20 : ℚ) < 1/10) ∧
    (Pump.setdiameter pumpIdle 20 []).written.head? =
      some ("03" ++ ("diameter " ++ "20.00") ++ "\r") := by
  have h2 : ¬((20 : ℚ) > 35 ∨ (20 : ℚ) < 1/10) := by
    push_neg
    constructor <;> norm_num
  have hr : roundHalfEven ((20 : ℚ) * 100) = 2000 := by
    rw [show (20 : ℚ) * 100 = ((2000 : ℤ) : ℚ) from by norm_num,
      roundHalfEven_intCast]
  have hfmt : fmt2f 20 = "20.00" := by
    unfold fmt2f
    rw [hr]
    decide
  refine ⟨rfl, h2, (C9_amended pumpIdle 20 [] rfl h2).trans ?_⟩
  rw [hfmt]
  rfl
